import Mathlib

/-!
Shallow embedding of the RustWebServerBackend static file server:
the HTTP response model from `http-resources/src/lib.rs` and the
per-connection request handling pipeline from `src/main.rs`.

Modelling conventions:
* A TCP input stream is the list of lines produced by the buffered
  line reader (a line whose read failed is represented by `""`, which
  is what the source maps it to before `take_while`).
* The filesystem seen by `handle_connection` is a function from path
  strings to a `FileResult`: `openErr` (the `File::open` call fails),
  `readErr` (open succeeds, `read_to_end` fails), or `ok content`
  (the full byte contents, bytes as `Nat`).
* The filesystem seen by the lazy error-page statics uses
  `fs::read_to_string`, modelled as `String → Option String`
  (`none` = any read failure), together with a `String → Bool`
  predicate saying whether `File::create` + `write_all` on a path
  would succeed.  An `unwrap` panic is modelled as the value `none`.
-/

/-- The header-name enum of `http-resources/src/lib.rs`. -/
inductive HttpResponseOptions
  | ContentType
  | ContentLength
deriving DecidableEq, Repr

/-- Embeds `HttpResponseOptions::get_name`. -/
def HttpResponseOptions.get_name : HttpResponseOptions → String
  | .ContentType => "Content-Type"
  | .ContentLength => "Content-Length"

/-- The protocol enum of `http-resources/src/lib.rs`. -/
inductive HttpProtocols
  | ZeroNine
  | One
  | OneOne
  | Two
deriving DecidableEq, Repr

/-- Embeds `HttpProtocols::get_name`. -/
def HttpProtocols.get_name : HttpProtocols → String
  | .ZeroNine => "HTTP/0.9"
  | .One => "HTTP/1.0"
  | .OneOne => "HTTP/1.1"
  | .Two => "HTTP/2.0"

/-- The status enum of `http-resources/src/lib.rs`. -/
inductive HttpResponseStatusCode
  | OK
  | NotFound
  | InternalServerError
deriving DecidableEq, Repr

/-- Embeds `HttpResponseStatusCode::get_header`: the status-line text. -/
def HttpResponseStatusCode.get_header : HttpResponseStatusCode → String
  | .OK => "200 Ok"
  | .NotFound => "404 Not Found"
  | .InternalServerError => "500 Internal Server Error"

/-- The `HttpResponse` struct.  The Rust `HashMap<HttpResponseOptions,
&'static str>` is modelled as an association list with unique keys;
its iteration order is unspecified in the source, the list order is
one admissible order. -/
structure HttpResponse where
  protocol : HttpProtocols
  status : HttpResponseStatusCode
  options : List (HttpResponseOptions × String)
  payload : List Nat
deriving DecidableEq, Repr

/-- Embeds `HttpResponse::SEPARATOR`. -/
def HttpResponse.SEPARATOR : String := "\r\n"

/-- Embeds `HttpResponse::new` (the warning println for protocols other than
HTTP/1.1 is a logging side effect with no bearing on the value). -/
def HttpResponse.new (protocol : HttpProtocols) : HttpResponse :=
  { protocol := protocol
    status := HttpResponseStatusCode.OK
    options := []
    payload := [] }

/-- Embeds `HttpResponse::set_status`. -/
def HttpResponse.set_status (r : HttpResponse) (new_status : HttpResponseStatusCode) :
    HttpResponse :=
  { r with status := new_status }

/-- Embeds `HashMap::insert` on the options map: replaces the value of an
existing key, otherwise adds the binding. -/
def insertOption (opts : List (HttpResponseOptions × String))
    (k : HttpResponseOptions) (v : String) : List (HttpResponseOptions × String) :=
  if opts.any (fun kv => kv.1 = k) then
    opts.map (fun kv => if kv.1 = k then (k, v) else kv)
  else
    opts ++ [(k, v)]

/-- Embeds `HttpResponse::append_option`. -/
def HttpResponse.append_option (r : HttpResponse) (option : HttpResponseOptions)
    (payload : String) : HttpResponse :=
  { r with options := insertOption r.options option payload }

/-- Embeds `HttpResponse::append_payload`. -/
def HttpResponse.append_payload (r : HttpResponse) (payload : List Nat) : HttpResponse :=
  { r with payload := payload }

/-- Lookup of a header value in the options map. -/
def lookupOpt (opts : List (HttpResponseOptions × String))
    (k : HttpResponseOptions) : Option String :=
  (opts.find? (fun kv => kv.1 = k)).map Prod.snd

/-- The header lines produced by the `for (key, value) in &self.options`
loop of `HttpResponse::get_header`. -/
def optionLines (opts : List (HttpResponseOptions × String)) : String :=
  opts.foldl
    (fun out kv => out ++ kv.1.get_name ++ ": " ++ kv.2 ++ HttpResponse.SEPARATOR) ""

/-- Embeds `HttpResponse::get_header`: status line, one line per option, and a
terminating blank line, each ended by `SEPARATOR`. -/
def HttpResponse.get_header (r : HttpResponse) : String :=
  r.protocol.get_name ++ " " ++ r.status.get_header ++ HttpResponse.SEPARATOR
    ++ optionLines r.options ++ HttpResponse.SEPARATOR

/-- The `ConnectionError` enum of `src/main.rs`. -/
inductive ConnectionError
  | TCPReadFailed
  | SourceNotFound
  | InternalServerErr
deriving DecidableEq, Repr

instance {ε α : Type} [DecidableEq ε] [DecidableEq α] : DecidableEq (Except ε α) := fun a b =>
  match a, b with
  | Except.error x, Except.error y =>
      if h : x = y then Decidable.isTrue (by rw [h]) else Decidable.isFalse (by simp [h])
  | Except.ok x, Except.ok y =>
      if h : x = y then Decidable.isTrue (by rw [h]) else Decidable.isFalse (by simp [h])
  | Except.error _, Except.ok _ => Decidable.isFalse (by simp)
  | Except.ok _, Except.error _ => Decidable.isFalse (by simp)

/-- Embeds `ConnectionError::get_html_err_msg`.  The two lazy statics
`ERR_PAGE`/`SERVER_ERR_PAGE` (of Rust type `Option<String>`) are passed
in as parameters; `map_or_else` supplies the bare status-line defaults
when they are `None`. -/
def ConnectionError.get_html_err_msg (e : ConnectionError)
    (errPage serverErrPage : Option String) : String :=
  match e with
  | .TCPReadFailed => "HTTP/1.1 400 BAD REQUEST"
  | .SourceNotFound =>
      match errPage with
      | none => "HTTP/1.1 404 NOT FOUND"
      | some s => s
  | .InternalServerErr =>
      match serverErrPage with
      | none => "HTTP/1.1 500 Internal Server Error"
      | some s => s

/-- Split a character list at every occurrence of the separator
character, keeping empty pieces — the semantics of Rust's
`str::split` with a one-character pattern (and of `String.splitOn`
for a one-character separator), written by structural recursion. -/
def splitOnChar (c : Char) : List Char → List (List Char)
  | [] => [[]]
  | x :: xs =>
    if x = c then [] :: splitOnChar c xs
    else
      match splitOnChar c xs with
      | [] => [[x]]
      | r :: rs => (x :: r) :: rs

/-- Embeds `str::split` with a one-character separator, on `String`. -/
def splitString (c : Char) (s : String) : List String :=
  (splitOnChar c s.data).map String.mk

/-- Embeds `Path::file_name` of the Rust standard library on Unix: the last
normal component of the path (separators are `/`; empty and `.`
components are dropped; a final `..` component, the root, or an empty
path have no file name). -/
def fileName (path : String) : Option String :=
  match ((splitString '/' path).filter (fun s => s ≠ "" && s ≠ ".")).getLast? with
  | none => none
  | some s => if s = ".." then none else some s

/-- Embeds `OsStr::extension` semantics applied to a file name: the portion
after the final `.`; `none` when there is no `.`, or when the name
begins with `.` and contains no other `.`. -/
def extensionOf (name : String) : Option String :=
  match splitString '.' name with
  | [] => none
  | [_] => none
  | ["", _] => none
  | parts => parts.getLast?

/-- Embeds `Path::new(path).extension().and_then(|ext| ext.to_str())` of
`src/main.rs` (for the `String` paths used here `to_str` never fails). -/
def pathExtension (path : String) : Option String :=
  (fileName path).bind extensionOf

/-- Outcome of opening and fully reading a file, as observed by
`handle_connection` (line 161 of `src/main.rs`). -/
inductive FileResult
  | openErr
  | readErr
  | ok (content : List Nat)
deriving DecidableEq, Repr

/-- A filesystem state for byte reads. -/
def FS : Type := String → FileResult

/-- The request-target extraction of `handle_connection` (lines
128-141 of `src/main.rs`): the buffered line iterator maps read errors
to `""` and `take_while(!is_empty)` stops there, so `next()` yields
the first line only when it exists and is nonempty; the target is the
second `split(" ")` token of that line. -/
def requestTarget (lines : List String) : Option String :=
  match lines with
  | [] => none
  | l :: _ => if l = "" then none else (splitString ' ' l)[1]?

/-- The extension `match` of `handle_connection` (lines 144-158 of
`src/main.rs`): yields the rewritten path together with the
Content-Type value, or `none` for the `_ => InternalServerErr` arm.
A `match` on string literal patterns is written as the equivalent
chain of equality tests, in source order. -/
def resolveTarget (home_name path : String) : Option (String × String) :=
  match pathExtension path with
  | none => some ((if path = "/" then "/" ++ home_name else path) ++ ".html", "text/html")
  | some ext =>
      if ext = "html" then
        some ((if path = "/" then "/" ++ home_name else path) ++ ".html", "text/html")
      else if ext = "css" then some (path, "text/css")
      else if ext = "png" then some (path, "image/png")
      else if ext = "ico" then some (path, "image/x-icon")
      else if ext = "js" then some (path, "application/javascript")
      else if ext = "wasm" then some (path, "application/wasm")
      else none

/-- Embeds `handle_connection` of `src/main.rs` (lines 127-167): parse the
request line, classify the extension, read
`website<path>` from the filesystem, and build the response. -/
def handle_connection (home_name : String) (fs : FS) (lines : List String) :
    Except ConnectionError HttpResponse :=
  match requestTarget lines with
  | none => Except.error ConnectionError.TCPReadFailed
  | some path =>
    let response := HttpResponse.new HttpProtocols.OneOne
    match resolveTarget home_name path with
    | none => Except.error ConnectionError.InternalServerErr
    | some (path2, ct) =>
      let response := response.append_option HttpResponseOptions.ContentType ct
      match fs ("website" ++ path2) with
      | FileResult.openErr => Except.error ConnectionError.SourceNotFound
      | FileResult.readErr => Except.error ConnectionError.InternalServerErr
      | FileResult.ok content =>
        let response := response.append_option HttpResponseOptions.ContentLength
          (toString content.length)
        let response := response.append_payload content
        Except.ok response

/-- The fixed extension → Content-Type table stated by the spec
(`text/html`, `text/css`, `image/png`, `image/x-icon`,
`application/javascript`, `application/wasm`); `none` for
unsupported extensions. -/
def contentTypeTable (ext : String) : Option String :=
  if ext = "html" then some "text/html"
  else if ext = "css" then some "text/css"
  else if ext = "png" then some "image/png"
  else if ext = "ico" then some "image/x-icon"
  else if ext = "js" then some "application/javascript"
  else if ext = "wasm" then some "application/wasm"
  else none

/-- The error classification of the file access on line 161 of
`src/main.rs`: a failed open is `SourceNotFound`, a failed full read
after a successful open is `InternalServerErr`. -/
def errClass : FileResult → Option ConnectionError
  | FileResult.openErr => some ConnectionError.SourceNotFound
  | FileResult.readErr => some ConnectionError.InternalServerErr
  | FileResult.ok _ => none

/-- The `ERR_PAGE` lazy static (lines 12-20 of `src/main.rs`).
`sfs` models `fs::read_to_string`; `canWrite p` models whether
`File::create(p)` followed by `write_all` succeeds.  The result is
`none` exactly when the source would panic on an `unwrap`, and
otherwise carries the cached page string together with the list of
(path, contents) writes performed to disk. -/
def ERR_PAGE (sfs : String → Option String) (canWrite : String → Bool) :
    Option (String × List (String × String)) :=
  match sfs "website/__errors__/404.html" with
  | some page =>
      some ("HTTP/1.1 404 NOT FOUND\r\nContent-Len: "
        ++ toString page.utf8ByteSize ++ "\r\n\r\n" ++ page, [])
  | none =>
      if canWrite "website/__errors__/404.html" then
        let page := "<html><body><h1>404</h1></body></html>"
        some ("HTTP/1.1 404 NOT FOUND\r\nContent-Len: "
          ++ toString page.utf8ByteSize ++ "\r\n\r\n" ++ page,
          [("website/__errors__/404.html",
            "<!DOCTYPE html><html><body><h1>404</h1></body></html>")])
      else none

/-- The `SERVER_ERR_PAGE` lazy static (lines 22-29 of `src/main.rs`).
Note that the fallback arm of the source creates and writes
`website/__errors__/404.html`, not `500.html`, and caches the
`<h1>404</h1>` page string under the 500 status line. -/
def SERVER_ERR_PAGE (sfs : String → Option String) (canWrite : String → Bool) :
    Option (String × List (String × String)) :=
  match sfs "website/__errors__/500.html" with
  | some page =>
      some ("HTTP/1.1 500 Internal Server Error\r\nContent-Len: "
        ++ toString page.utf8ByteSize ++ "\r\n\r\n" ++ page, [])
  | none =>
      if canWrite "website/__errors__/404.html" then
        let page := "<html><body><h1>404</h1></body></html>"
        some ("HTTP/1.1 500 Internal Server Error\r\nContent-Len: "
          ++ toString page.utf8ByteSize ++ "\r\n\r\n" ++ page,
          [("website/__errors__/404.html",
            "<!DOCTYPE html><html><body><h1>500</h1></body></html>")])
      else none

/-! ## Helper lemmas -/

theorem str_append_assoc (a b c : String) : a ++ b ++ c = a ++ (b ++ c) := by
  apply String.ext
  simp [String.data_append, List.append_assoc]

theorem str_append_empty (s : String) : s ++ "" = s := by
  apply String.ext
  simp [String.data_append]

theorem resolveTarget_supported (hn path ext ct : String)
    (hext : pathExtension path = some ext) (hct : contentTypeTable ext = some ct) :
    resolveTarget hn path = some ((if ext = "html" then path ++ ".html" else path), ct) := by
  have hne : path ≠ "/" := by
    intro h
    subst h
    rw [show pathExtension "/" = none from rfl] at hext
    exact Option.noConfusion hext
  unfold resolveTarget
  rw [hext]
  unfold contentTypeTable at hct
  split_ifs at hct ⊢ <;> simp_all

theorem resolveTarget_unsupported (hn path ext : String)
    (hext : pathExtension path = some ext) (hct : contentTypeTable ext = none) :
    resolveTarget hn path = none := by
  unfold resolveTarget
  rw [hext]
  unfold contentTypeTable at hct
  split_ifs at hct ⊢ <;> simp_all

theorem foldl_optionLines_suffix (opts : List (HttpResponseOptions × String)) :
    ∀ acc : String,
      (opts.foldl
        (fun out kv => out ++ kv.1.get_name ++ ": " ++ kv.2 ++ HttpResponse.SEPARATOR) acc
        = acc) ∨
      (∃ t, opts.foldl
        (fun out kv => out ++ kv.1.get_name ++ ": " ++ kv.2 ++ HttpResponse.SEPARATOR) acc
        = t ++ HttpResponse.SEPARATOR) := by
  induction opts with
  | nil => intro acc; exact Or.inl rfl
  | cons kv rest ih =>
    intro acc
    rcases ih (acc ++ kv.1.get_name ++ ": " ++ kv.2 ++ HttpResponse.SEPARATOR) with h | ⟨t, ht⟩
    · right
      refine ⟨acc ++ kv.1.get_name ++ ": " ++ kv.2, ?_⟩
      rw [List.foldl_cons, h]
    · right
      refine ⟨t, ?_⟩
      rw [List.foldl_cons, ht]

/-! ## Claim theorems -/

/-- Claim C1, as stated, is false on the code: with home_name `home` and a
document root in which only `website/home.html` exists, the target `/` is
rewritten to `/home.html` and served, while the target `/home.html` has
extension `html` and gets a second `.html` appended (line 149 of
`src/main.rs`), resolving to the missing `website/home.html.html` and
yielding `SourceNotFound`. -/
theorem c1_root_vs_home_html_differ :
    handle_connection "home"
      (fun p => if p = "website/home.html" then FileResult.ok [65] else FileResult.openErr)
      ["GET / HTTP/1.1"]
    ≠ handle_connection "home"
      (fun p => if p = "website/home.html" then FileResult.ok [65] else FileResult.openErr)
      ["GET /home.html HTTP/1.1"] := by
  decide

/-- Claim C1 (amended): for every home_name such that `/<home_name>` has no
extension and is not itself `/`, and every document-root file state, the
response for the request target `/` is identical to the response for the
request target `/<home_name>` (both are rewritten to `/<home_name>.html`). -/
theorem c1_root_equals_home_name_amended (hn : String) (fs : FS) (l1 l2 : List String)
    (hext : pathExtension ("/" ++ hn) = none) (hne : "/" ++ hn ≠ "/")
    (h1 : requestTarget l1 = some "/") (h2 : requestTarget l2 = some ("/" ++ hn)) :
    handle_connection hn fs l1 = handle_connection hn fs l2 := by
  have e1 : resolveTarget hn "/" = some (("/" ++ hn) ++ ".html", "text/html") := by
    unfold resolveTarget
    rw [show pathExtension "/" = none from rfl, if_pos rfl]
  have e2 : resolveTarget hn ("/" ++ hn) = some (("/" ++ hn) ++ ".html", "text/html") := by
    unfold resolveTarget
    rw [hext, if_neg hne]
  simp only [handle_connection, h1, h2, e1, e2]

/-- Witness for the amended claim C1 at home_name `home`. -/
theorem c1_root_equals_home_name_amended_witness :
    handle_connection "home" (fun _ => FileResult.openErr) ["GET / HTTP/1.1"]
      = handle_connection "home" (fun _ => FileResult.openErr) ["GET /home HTTP/1.1"] :=
  c1_root_equals_home_name_amended "home" (fun _ => FileResult.openErr)
    ["GET / HTTP/1.1"] ["GET /home HTTP/1.1"]
    (by decide) (by decide) (by decide) (by decide)

/-- Claim C5: whenever the first line of the request yields no second
whitespace-delimited token (no line at all, an empty first line, or a first
line without a second `split(" ")` token), `handle_connection` returns the
`TCPReadFailed` error, and the error bytes for that kind are exactly the
literal `HTTP/1.1 400 BAD REQUEST` with no headers and no body, whatever
the cached error pages are. -/
theorem c5_read_failed_literal (hn : String) (fs : FS) (lines : List String)
    (ep sp : Option String)
    (hreq : requestTarget lines = none) :
    handle_connection hn fs lines = Except.error ConnectionError.TCPReadFailed ∧
    ConnectionError.get_html_err_msg ConnectionError.TCPReadFailed ep sp
      = "HTTP/1.1 400 BAD REQUEST" := by
  constructor
  · simp only [handle_connection, hreq]
  · rfl

/-- Witness for claim C5 at the empty stream. -/
theorem c5_read_failed_literal_witness :
    handle_connection "home" (fun _ => FileResult.openErr) []
      = Except.error ConnectionError.TCPReadFailed ∧
    ConnectionError.get_html_err_msg ConnectionError.TCPReadFailed none none
      = "HTTP/1.1 400 BAD REQUEST" :=
  c5_read_failed_literal "home" (fun _ => FileResult.openErr) [] none none rfl

/-- Claim C7, as stated, is false on the code: the status enum lists the
200 text as `200 Ok` (line 54 of `http-resources/src/lib.rs`), not
`200 OK`, so the serialized header of a fresh response does not begin with
`HTTP/1.1 200 OK\r\n`. -/
theorem c7_status_text_mismatch :
    HttpResponseStatusCode.OK.get_header ≠ "200 OK" ∧
    ("HTTP/1.1 200 OK\r\n".data.isPrefixOf
      (HttpResponse.new HttpProtocols.OneOne).get_header.data) = false := by
  constructor
  · decide
  · decide

/-- Claim C7 (amended): for every protocol variant, `new(protocol)` yields a
response whose status defaults to 200 OK, and `get_header` on it begins
with the line `<protocol-name> 200 Ok\r\n` (for HTTP/1.1:
`HTTP/1.1 200 Ok\r\n`), the status text being exactly `200 Ok` as listed
in the status enum. -/
theorem c7_new_status_line_amended (p : HttpProtocols) :
    (HttpResponse.new p).status = HttpResponseStatusCode.OK ∧
    HttpResponseStatusCode.OK.get_header = "200 Ok" ∧
    (HttpResponse.new p).get_header = p.get_name ++ " 200 Ok\r\n\r\n" := by
  refine ⟨rfl, rfl, ?_⟩
  cases p <;> rfl

/-- Claim C8: for every response, regardless of how many options are set
(including zero), `get_header` ends with one blank line: its output has
the suffix `\r\n\r\n` (every line it emits, including each option line,
is CRLF-terminated). -/
theorem c8_header_ends_crlf_crlf (r : HttpResponse) :
    ∃ t, r.get_header = t ++ "\r\n\r\n" := by
  unfold HttpResponse.get_header optionLines
  rcases foldl_optionLines_suffix r.options "" with h | ⟨t, ht⟩
  · refine ⟨r.protocol.get_name ++ " " ++ r.status.get_header, ?_⟩
    rw [h, str_append_empty, str_append_assoc]
    rfl
  · refine ⟨r.protocol.get_name ++ " " ++ r.status.get_header
      ++ HttpResponse.SEPARATOR ++ t, ?_⟩
    rw [ht]
    rw [show (HttpResponse.SEPARATOR : String) = "\r\n" from rfl]
    rw [← str_append_assoc (r.protocol.get_name ++ " " ++ r.status.get_header ++ "\r\n") t "\r\n"]
    rw [str_append_assoc (r.protocol.get_name ++ " " ++ r.status.get_header ++ "\r\n" ++ t) "\r\n" "\r\n"]
    rfl

/-- Claim C2: for every supported extension, if the resolved file under the
document root exists and is fully readable, `handle_connection` returns a
response with status 200, Content-Type equal to the fixed per-extension
table entry, and Content-Length equal to the decimal string of the byte
length of the payload. -/
theorem c2_supported_ext_success (hn : String) (fs : FS) (lines : List String)
    (path ext ct : String) (content : List Nat)
    (hreq : requestTarget lines = some path)
    (hext : pathExtension path = some ext)
    (hct : contentTypeTable ext = some ct)
    (hfile : fs ("website" ++ (if ext = "html" then path ++ ".html" else path))
      = FileResult.ok content) :
    ∃ r : HttpResponse,
      handle_connection hn fs lines = Except.ok r ∧
      r.status = HttpResponseStatusCode.OK ∧
      lookupOpt r.options HttpResponseOptions.ContentType = some ct ∧
      lookupOpt r.options HttpResponseOptions.ContentLength
        = some (toString content.length) ∧
      r.payload = content := by
  have hres := resolveTarget_supported hn path ext ct hext hct
  refine ⟨{ protocol := HttpProtocols.OneOne,
            status := HttpResponseStatusCode.OK,
            options := [(HttpResponseOptions.ContentType, ct),
              (HttpResponseOptions.ContentLength, toString content.length)],
            payload := content }, ?_, rfl, rfl, rfl, rfl⟩
  simp only [handle_connection, hreq, hres, hfile]
  rfl

/-- Witness for claim C2 at a one-byte css file. -/
theorem c2_supported_ext_success_witness :
    ∃ r : HttpResponse,
      handle_connection "home"
        (fun p => if p = "website/a.css" then FileResult.ok [104] else FileResult.openErr)
        ["GET /a.css HTTP/1.1"] = Except.ok r ∧
      r.status = HttpResponseStatusCode.OK ∧
      lookupOpt r.options HttpResponseOptions.ContentType = some "text/css" ∧
      lookupOpt r.options HttpResponseOptions.ContentLength
        = some (toString ([104] : List Nat).length) ∧
      r.payload = [104] :=
  c2_supported_ext_success "home"
    (fun p => if p = "website/a.css" then FileResult.ok [104] else FileResult.openErr)
    ["GET /a.css HTTP/1.1"] "/a.css" "css" "text/css" [104]
    (by decide) (by decide) (by decide) (by decide)

/-- Claim C3: a request target whose extension is present and not one of
html, css, png, ico, js, wasm yields the `InternalServerErr`
classification (so never `SourceNotFound` and never `TCPReadFailed`);
the result is the same for every filesystem state, which expresses that
the classification happens before any filesystem access. -/
theorem c3_unsupported_ext_internal_error (hn : String) (fs : FS) (lines : List String)
    (path ext : String)
    (hreq : requestTarget lines = some path)
    (hext : pathExtension path = some ext)
    (hmem : ext ∉ ["html", "css", "png", "ico", "js", "wasm"]) :
    handle_connection hn fs lines = Except.error ConnectionError.InternalServerErr := by
  have hct : contentTypeTable ext = none := by
    simp only [List.mem_cons, List.not_mem_nil, or_false, not_or] at hmem
    obtain ⟨h1, h2, h3, h4, h5, h6⟩ := hmem
    simp [contentTypeTable, h1, h2, h3, h4, h5, h6]
  have hres := resolveTarget_unsupported hn path ext hext hct
  simp only [handle_connection, hreq, hres]

/-- Witness for claim C3 at the target `/x.exe`, on a filesystem where
every file exists (the extension check fires first). -/
theorem c3_unsupported_ext_internal_error_witness :
    handle_connection "home" (fun _ => FileResult.ok []) ["GET /x.exe HTTP/1.1"]
      = Except.error ConnectionError.InternalServerErr :=
  c3_unsupported_ext_internal_error "home" (fun _ => FileResult.ok [])
    ["GET /x.exe HTTP/1.1"] "/x.exe" "exe" (by decide) (by decide) (by decide)

/-- Claim C4: for a request whose extension is accepted, a failed open of
the resolved file yields `SourceNotFound`, and a successful open followed
by a failed full read yields `InternalServerErr` (the mapping recorded by
`errClass`). -/
theorem c4_open_read_failure_classification (hn : String) (fs : FS) (lines : List String)
    (path p2 ct : String) (e : ConnectionError)
    (hreq : requestTarget lines = some path)
    (hres : resolveTarget hn path = some (p2, ct))
    (herr : errClass (fs ("website" ++ p2)) = some e) :
    handle_connection hn fs lines = Except.error e := by
  simp only [handle_connection, hreq, hres]
  cases hfs : fs ("website" ++ p2) <;> rw [hfs] at herr <;>
    simp only [errClass, Option.some.injEq, reduceCtorEq] at herr
  · rw [← herr]
  · rw [← herr]

/-- Witness for claim C4 at a failed open of `website/a.css`. -/
theorem c4_open_read_failure_classification_witness :
    handle_connection "home" (fun _ => FileResult.openErr) ["GET /a.css HTTP/1.1"]
      = Except.error ConnectionError.SourceNotFound :=
  c4_open_read_failure_classification "home" (fun _ => FileResult.openErr)
    ["GET /a.css HTTP/1.1"] "/a.css" "/a.css" "text/css" ConnectionError.SourceNotFound
    (by decide) (by decide) (by decide)

/-- Claim C6, as stated, is false on the code: when the canonical error-page
file is missing and the fallback `File::create`/`write_all` also fails
(for instance because `website/__errors__/` does not exist), both lazy
statics hit an `unwrap` on an `Err` and panic — modelled as the value
`none`. -/
theorem c6_errpage_can_panic :
    ERR_PAGE (fun _ => none) (fun _ => false) = none ∧
    SERVER_ERR_PAGE (fun _ => none) (fun _ => false) = none :=
  ⟨rfl, rfl⟩

/-- Claim C6 (amended): for each of the two kinds, when the canonical
on-disk error-page file is missing but the fallback file write succeeds,
computing the cached error-page bytes succeeds by synthesizing the
minimal inline fallback page. -/
theorem c6_errpage_fallback_amended (sfs : String → Option String) (canW : String → Bool)
    (h404 : sfs "website/__errors__/404.html" = none)
    (h500 : sfs "website/__errors__/500.html" = none)
    (hw : canW "website/__errors__/404.html" = true) :
    (∃ v, ERR_PAGE sfs canW = some v) ∧ (∃ v, SERVER_ERR_PAGE sfs canW = some v) := by
  constructor
  · refine ⟨("HTTP/1.1 404 NOT FOUND\r\nContent-Len: 38\r\n\r\n<html><body><h1>404</h1></body></html>",
      [("website/__errors__/404.html",
        "<!DOCTYPE html><html><body><h1>404</h1></body></html>")]), ?_⟩
    simp only [ERR_PAGE, h404, hw, if_true]
    rfl
  · refine ⟨("HTTP/1.1 500 Internal Server Error\r\nContent-Len: 38\r\n\r\n<html><body><h1>404</h1></body></html>",
      [("website/__errors__/404.html",
        "<!DOCTYPE html><html><body><h1>500</h1></body></html>")]), ?_⟩
    simp only [SERVER_ERR_PAGE, h500, hw, if_true]
    rfl

/-- Witness for the amended claim C6 on an empty but writable filesystem. -/
theorem c6_errpage_fallback_amended_witness :
    (∃ v, ERR_PAGE (fun _ => none) (fun _ => true) = some v) ∧
    (∃ v, SERVER_ERR_PAGE (fun _ => none) (fun _ => true) = some v) :=
  c6_errpage_fallback_amended (fun _ => none) (fun _ => true) rfl rfl rfl

/-- Claim C9: when `website/__errors__/500.html` is missing (and the
fallback write succeeds), the `SERVER_ERR_PAGE` fallback creates and
writes the file `website/__errors__/404.html` — not `500.html` — and the
cached `InternalServerErr` response is the 404 fallback HTML
`<html><body><h1>404</h1></body></html>` wrapped in a
`500 Internal Server Error` status line. -/
theorem c9_server_err_page_writes_404_file (sfs : String → Option String)
    (canW : String → Bool)
    (h500 : sfs "website/__errors__/500.html" = none)
    (hw : canW "website/__errors__/404.html" = true) :
    SERVER_ERR_PAGE sfs canW =
      some ("HTTP/1.1 500 Internal Server Error\r\nContent-Len: 38\r\n\r\n<html><body><h1>404</h1></body></html>",
        [("website/__errors__/404.html",
          "<!DOCTYPE html><html><body><h1>500</h1></body></html>")]) := by
  simp only [SERVER_ERR_PAGE, h500, hw, if_true]
  rfl

/-- Witness for claim C9 on an empty but writable filesystem. -/
theorem c9_server_err_page_writes_404_file_witness :
    SERVER_ERR_PAGE (fun _ => none) (fun _ => true) =
      some ("HTTP/1.1 500 Internal Server Error\r\nContent-Len: 38\r\n\r\n<html><body><h1>404</h1></body></html>",
        [("website/__errors__/404.html",
          "<!DOCTYPE html><html><body><h1>500</h1></body></html>")]) :=
  c9_server_err_page_writes_404_file (fun _ => none) (fun _ => true) rfl rfl

/-- Claim C10: every response returned on the Ok path of
`handle_connection` has status 200 OK, and its options map contains
exactly the two keys Content-Type and Content-Length (in that insertion
order); error statuses never flow through the `HttpResponse` type at the
connection boundary. -/
theorem c10_ok_response_invariants (hn : String) (fs : FS) (lines : List String)
    (r : HttpResponse)
    (h : handle_connection hn fs lines = Except.ok r) :
    r.status = HttpResponseStatusCode.OK ∧
    ∃ ct cl, r.options = [(HttpResponseOptions.ContentType, ct),
      (HttpResponseOptions.ContentLength, cl)] := by
  simp only [handle_connection] at h
  rcases hreq : requestTarget lines with _ | path
  · simp only [hreq] at h
    exact Except.noConfusion h
  · simp only [hreq] at h
    rcases hres : resolveTarget hn path with _ | ⟨path2, ct⟩
    · simp only [hres] at h
      exact Except.noConfusion h
    · simp only [hres] at h
      rcases hfs : fs ("website" ++ path2) with _ | _ | content
      · simp only [hfs] at h
        exact Except.noConfusion h
      · simp only [hfs] at h
        exact Except.noConfusion h
      · simp only [hfs] at h
        injection h with h
        subst h
        exact ⟨rfl, ct, toString content.length, rfl⟩

/-- Witness for claim C10 at a one-byte css file. -/
theorem c10_ok_response_invariants_witness :
    ({ protocol := HttpProtocols.OneOne,
       status := HttpResponseStatusCode.OK,
       options := [(HttpResponseOptions.ContentType, "text/css"),
         (HttpResponseOptions.ContentLength, "1")],
       payload := [104] } : HttpResponse).status = HttpResponseStatusCode.OK ∧
    ∃ ct cl,
      ({ protocol := HttpProtocols.OneOne,
         status := HttpResponseStatusCode.OK,
         options := [(HttpResponseOptions.ContentType, "text/css"),
           (HttpResponseOptions.ContentLength, "1")],
         payload := [104] } : HttpResponse).options
          = [(HttpResponseOptions.ContentType, ct), (HttpResponseOptions.ContentLength, cl)] :=
  c10_ok_response_invariants "home"
    (fun p => if p = "website/a.css" then FileResult.ok [104] else FileResult.openErr)
    ["GET /a.css HTTP/1.1"] _ (by decide)
